import Mathlib

/- Verification of the command-grammar layer of spotify-tui (src/cli/clap.rs).

   The source file declares, per subcommand (list / play / playback / search),
   a flag schema (clap Arg builders), a group constraint model (clap ArgGroup
   builders) and conditional defaults (default_value_ifs).  Those declarations
   are embedded below as literal data, field by field.  The engines that
   interpret the declarations (token parsing, group validation, conditional
   default resolution, Action building) are not part of the repository's
   source; they are modelled from the spec (sections 4.1 to 4.4) and are
   marked as such in their doc comments. -/

namespace Spt

/-- Runtime presence of a single flag (spec section 3, PresenceMap):
absent, present with an occurrence count, or present with a value. -/
inductive Presence where
  | absent : Presence
  | count (n : Nat) : Presence
  | value (v : String) : Presence
deriving DecidableEq

/-- PresenceMap: runtime mapping from flag name to presence (spec section 3). -/
def PresenceMap := List (String × Presence)

instance : DecidableEq PresenceMap := by
  unfold PresenceMap
  infer_instance

def lookupPresence (p : PresenceMap) (n : String) : Presence :=
  match p.find? (fun e => e.fst == n) with
  | some e => e.snd
  | none => Presence.absent

def isPresent (p : PresenceMap) (n : String) : Bool :=
  match lookupPresence p n with
  | Presence.absent => false
  | _ => true

def countOf (p : PresenceMap) (n : String) : Nat :=
  match lookupPresence p n with
  | Presence.absent => 0
  | Presence.count k => k
  | Presence.value _ => 1

/-- Number of present members of a list of flag names. -/
def presentCount (p : PresenceMap) (ns : List String) : Nat :=
  (ns.filter (fun n => isPresent p n)).length

/-- One clap Arg declaration: name, short/long spelling, declared arity
(numArgsDecl none means the clap default of one value token), whether the
occurrences are counted, allow_hyphen_values, requires(group),
conflicts_with_all(args), default_value and default_value_ifs, required. -/
structure FlagSpec where
  name : String
  short : Option Char := none
  long : Option String := none
  numArgsDecl : Option Nat := none
  counted : Bool := false
  allowHyphen : Bool := false
  requiresGroup : Option String := none
  conflictsArgs : List String := []
  defaultVal : Option String := none
  defaultValIfs : List (String × String) := []
  required : Bool := false
deriving DecidableEq

/-- Effective arity: clap's default for an Arg without num_args is one
value token. -/
def effectiveNumArgs (s : FlagSpec) : Nat := s.numArgsDecl.getD 1

/-- One clap ArgGroup declaration. -/
structure ArgGroup where
  name : String
  args : List String
  multiple : Bool := false
  required : Bool := false
  conflictsWith : List String := []
deriving DecidableEq

inductive ValidationError where
  | mutuallyExclusive (g : String)
  | missingRequired (g : String)
  | groupConflict (g h : String)
  | requiresMissing (a g : String)
  | argConflict (a b : String)
  | missingRequiredArg (a : String)
deriving DecidableEq

/-- Present-member count of the group named n, 0 for an unknown name. -/
def groupCount (p : PresenceMap) (all : List ArgGroup) (n : String) : Nat :=
  match all.find? (fun g => g.name == n) with
  | some g => presentCount p g.args
  | none => 0

/-- Modelled from the spec: group validation (section 4.2).  For one group:
exclusivity (AtMostOne), requirement, then conflicts with other groups,
in that order; the engine itself is not in the repository source. -/
def checkGroup (p : PresenceMap) (all : List ArgGroup) (g : ArgGroup) :
    Option ValidationError :=
  if g.multiple = false ∧ 2 ≤ presentCount p g.args then
    some (ValidationError.mutuallyExclusive g.name)
  else if g.required = true ∧ presentCount p g.args = 0 then
    some (ValidationError.missingRequired g.name)
  else if 0 < presentCount p g.args then
    match g.conflictsWith.find? (fun n => decide (0 < groupCount p all n)) with
    | some n => some (ValidationError.groupConflict g.name n)
    | none => none
  else
    none

/-- Modelled from the spec: groups are checked in declaration order and the
first violated rule is reported (section 4.2). -/
def checkGroups (p : PresenceMap) (all : List ArgGroup) :
    List ArgGroup → Option ValidationError
  | [] => none
  | g :: gs =>
    match checkGroup p all g with
    | some e => some e
    | none => checkGroups p all gs

def argConflictErr (p : PresenceMap) (s : FlagSpec) : Option ValidationError :=
  match s.conflictsArgs.find? (fun b => isPresent p b) with
  | some b => some (ValidationError.argConflict s.name b)
  | none => none

/-- Modelled from the spec: per-flag requirement and conflict edges
(requires(group) and conflicts_with_all on a clap Arg). -/
def checkArg (p : PresenceMap) (all : List ArgGroup) (s : FlagSpec) :
    Option ValidationError :=
  if isPresent p s.name = true then
    match s.requiresGroup with
    | some gn =>
      if groupCount p all gn = 0 then some (ValidationError.requiresMissing s.name gn)
      else argConflictErr p s
    | none => argConflictErr p s
  else none

def checkArgs (p : PresenceMap) (all : List ArgGroup) :
    List FlagSpec → Option ValidationError
  | [] => none
  | s :: ss =>
    match checkArg p all s with
    | some e => some e
    | none => checkArgs p all ss

/-- Modelled from the spec: a flag declared required must be present. -/
def checkRequiredArgs (p : PresenceMap) : List FlagSpec → Option ValidationError
  | [] => none
  | s :: ss =>
    if s.required = true ∧ isPresent p s.name = false then
      some (ValidationError.missingRequiredArg s.name)
    else checkRequiredArgs p ss

/-- Modelled from the spec: full validation of one invocation (section 4.2),
short-circuiting at the first violated rule. -/
def validateCommand (specs : List FlagSpec) (groups : List ArgGroup)
    (p : PresenceMap) : Option ValidationError :=
  match checkGroups p groups groups with
  | some e => some e
  | none =>
    match checkArgs p groups specs with
    | some e => some e
    | none => checkRequiredArgs p specs

/- ---------------- schemas, transcribed from src/cli/clap.rs ---------------- -/

/-- device_arg() of clap.rs. -/
def deviceArg : FlagSpec := { name := "device", short := some 'd', long := some "device" }

/-- format_arg() of clap.rs, before per-command defaults are attached. -/
def formatArgBase : FlagSpec := { name := "format", short := some 'f', long := some "format" }

/-- The format Arg of playback_subcommand: static default plus
default_value_ifs for seek, volume, transfer, in that declared order. -/
def playbackFormatArg : FlagSpec :=
  { formatArgBase with
    defaultVal := some "%f %s %t - %a",
    defaultValIfs :=
      [("seek", "%f %s %t - %a %r"),
       ("volume", "%v% %f %s %t - %a"),
       ("transfer", "%f %s %t - %a on %d")] }

/-- The next Arg of playback_subcommand: declared with num_args(0) and no
count action (the clap-2 .multiple(true) is commented out in the source). -/
def nextArg : FlagSpec :=
  { name := "next", short := some 'n', long := some "next", numArgsDecl := some 0 }

/-- The previous Arg of playback_subcommand: no num_args declaration at all,
so it keeps clap's default of one value token. -/
def previousArg : FlagSpec :=
  { name := "previous", short := some 'p', long := some "previous" }

/-- The Arg declarations of playback_subcommand, in source order. -/
def playbackArgs : List FlagSpec :=
  [ deviceArg,
    playbackFormatArg,
    { name := "toggle", short := some 't', long := some "toggle", numArgsDecl := some 0 },
    { name := "status", short := some 's', long := some "status", numArgsDecl := some 0 },
    { name := "share-track", long := some "share-track", numArgsDecl := some 0 },
    { name := "share-album", long := some "share-album", numArgsDecl := some 0 },
    { name := "transfer", long := some "transfer", numArgsDecl := some 1 },
    { name := "like", long := some "like", numArgsDecl := some 0 },
    { name := "dislike", long := some "dislike", numArgsDecl := some 0 },
    { name := "shuffle", long := some "shuffle", numArgsDecl := some 0 },
    { name := "repeat", long := some "repeat", numArgsDecl := some 0 },
    nextArg,
    previousArg,
    { name := "seek", long := some "seek", allowHyphen := true },
    { name := "volume", short := some 'v', long := some "volume" } ]

def jumpsGroup : ArgGroup :=
  { name := "jumps", args := ["next", "previous"], multiple := false,
    conflictsWith := ["single", "flags", "actions"] }

def likesGroup : ArgGroup :=
  { name := "likes", args := ["like", "dislike"], multiple := false }

def flagsGroup : ArgGroup :=
  { name := "flags", args := ["like", "dislike", "shuffle", "repeat"],
    multiple := true, conflictsWith := ["single", "jumps"] }

def actionsGroup : ArgGroup :=
  { name := "actions", args := ["toggle", "status", "transfer", "volume"],
    multiple := true, conflictsWith := ["single", "jumps"] }

def singleGroup : ArgGroup :=
  { name := "single", args := ["share-track", "share-album"], multiple := false,
    conflictsWith := ["actions", "flags", "jumps"] }

/-- The ArgGroup declarations of playback_subcommand, in source order. -/
def playbackGroups : List ArgGroup :=
  [jumpsGroup, likesGroup, flagsGroup, actionsGroup, singleGroup]

def playbackValidate (p : PresenceMap) : Option ValidationError :=
  validateCommand playbackArgs playbackGroups p

/-- The format Arg of play_subcommand. -/
def playFormatArg : FlagSpec := { formatArgBase with defaultVal := some "%f %s %t - %a" }

/-- The name Arg of play_subcommand, which declares requires("contexts"). -/
def playNameArg : FlagSpec :=
  { name := "name", short := some 'n', long := some "name", numArgsDecl := some 1,
    requiresGroup := some "contexts" }

/-- The Arg declarations of play_subcommand, in source order. -/
def playArgs : List FlagSpec :=
  [ deviceArg,
    playFormatArg,
    { name := "uri", short := some 'u', long := some "uri", numArgsDecl := some 1 },
    playNameArg,
    { name := "queue", short := some 'q', long := some "queue",
      conflictsArgs := ["album", "artist", "playlist", "show"] },
    { name := "random", short := some 'r', long := some "random",
      conflictsArgs := ["track", "album", "artist", "show"] },
    { name := "album", short := some 'b', long := some "album" },
    { name := "artist", short := some 'a', long := some "artist" },
    { name := "track", short := some 't', long := some "track" },
    { name := "show", short := some 'w', long := some "show" },
    { name := "playlist", short := some 'p', long := some "playlist" } ]

def contextsGroup : ArgGroup :=
  { name := "contexts", args := ["track", "artist", "playlist", "album", "show"],
    multiple := false }

def playActionsGroup : ArgGroup :=
  { name := "actions", args := ["uri", "name"], multiple := false, required := true }

/-- The ArgGroup declarations of play_subcommand, in source order. -/
def playGroups : List ArgGroup := [contextsGroup, playActionsGroup]

def playValidate (p : PresenceMap) : Option ValidationError :=
  validateCommand playArgs playGroups p

/-- The format Arg of list_subcommand: default_value_ifs for devices, liked,
playlists in that declared order, and no static default. -/
def listFormatArg : FlagSpec :=
  { formatArgBase with
    defaultValIfs :=
      [("devices", "%v% %d"),
       ("liked", "%t - %a (%u)"),
       ("playlists", "%p (%u)")] }

/-- The Arg declarations of list_subcommand, in source order. -/
def listArgs : List FlagSpec :=
  [ listFormatArg,
    { name := "devices", short := some 'd', long := some "devices" },
    { name := "playlists", short := some 'p', long := some "playlists" },
    { name := "liked", long := some "liked" },
    { name := "limit", long := some "limit" } ]

def listableGroup : ArgGroup :=
  { name := "listable", args := ["devices", "playlists", "liked"],
    multiple := false, required := true }

def listGroups : List ArgGroup := [listableGroup]

def listValidate (p : PresenceMap) : Option ValidationError :=
  validateCommand listArgs listGroups p

/-- The format Arg of search_subcommand. -/
def searchFormatArg : FlagSpec :=
  { formatArgBase with
    defaultValIfs :=
      [("tracks", "%t - %a (%u)"),
       ("playlists", "%p (%u)"),
       ("artists", "%a (%u)"),
       ("albums", "%b - %a (%u)"),
       ("shows", "%h - %a (%u)")] }

/-- The Arg declarations of search_subcommand, in source order; search is the
required positional query. -/
def searchArgs : List FlagSpec :=
  [ searchFormatArg,
    { name := "search", required := true },
    { name := "albums", short := some 'b', long := some "albums" },
    { name := "artists", short := some 'a', long := some "artists" },
    { name := "playlists", short := some 'p', long := some "playlists" },
    { name := "tracks", short := some 't', long := some "tracks" },
    { name := "shows", short := some 'w', long := some "shows" },
    { name := "limit", long := some "limit" } ]

def searchableGroup : ArgGroup :=
  { name := "searchable", args := ["playlists", "tracks", "albums", "artists", "shows"],
    multiple := false, required := true }

def searchGroups : List ArgGroup := [searchableGroup]

def searchValidate (p : PresenceMap) : Option ValidationError :=
  validateCommand searchArgs searchGroups p

/-- The derive-based top-level config field: Option PathBuf, so optional. -/
def configArg : FlagSpec := { name := "config", short := some 'c', long := some "config" }

/-- The derive-based top-level completions field: a non-Option String, so the
flag is required on every invocation. -/
def completionsArg : FlagSpec :=
  { name := "completions", long := some "completions", required := true }

/-- The derive-based top-level tick-rate field: a non-Option usize, so the
flag is required on every invocation. -/
def tickRateArg : FlagSpec :=
  { name := "tick-rate", short := some 't', long := some "tick-rate", required := true }

/-- The derive-based top-level Cli interface. -/
def cliArgs : List FlagSpec := [configArg, completionsArg, tickRateArg]

def cliValidate (p : PresenceMap) : Option ValidationError :=
  validateCommand cliArgs [] p

/- ---------------- token parsing (spec section 4.1) ---------------- -/

inductive ParseError where
  | unknownFlag (t : String)
  | missingValue (a : String)
  | repeated (a : String)
  | hyphenValue (a v : String)
deriving DecidableEq

/-- Does a raw token name this Arg, as its long or its short spelling? -/
def matchesToken (s : FlagSpec) (t : String) : Bool :=
  (match s.long with
   | some l => t == "--" ++ l
   | none => false)
  ||
  (match s.short with
   | some c => t == String.mk ['-', c]
   | none => false)

def findByToken (specs : List FlagSpec) (t : String) : Option FlagSpec :=
  specs.find? (fun s => matchesToken s t)

def setPresence (p : PresenceMap) (n : String) (v : Presence) : PresenceMap :=
  match p with
  | [] => [(n, v)]
  | e :: rest => if e.fst = n then (n, v) :: rest else e :: setPresence rest n v

/-- Modelled from the spec: the syntactic parse (section 4.1), which is not
in the repository source.  A zero-arity flag records presence (repeats
collapse unless the flag is declared counted); a valued flag consumes
exactly one following token, rejecting a missing value, a repeat, and a
leading hyphen unless allow_hyphen_values is declared. -/
def parseTokens (specs : List FlagSpec) :
    List String → PresenceMap → Except ParseError PresenceMap
  | [], acc => Except.ok acc
  | t :: rest, acc =>
    match findByToken specs t with
    | none => Except.error (ParseError.unknownFlag t)
    | some s =>
      if effectiveNumArgs s = 0 then
        match lookupPresence acc s.name with
        | Presence.absent => parseTokens specs rest (setPresence acc s.name (Presence.count 1))
        | Presence.count k =>
          if s.counted = true then
            parseTokens specs rest (setPresence acc s.name (Presence.count (k + 1)))
          else
            parseTokens specs rest acc
        | Presence.value _ => Except.error (ParseError.repeated s.name)
      else
        match rest with
        | [] => Except.error (ParseError.missingValue s.name)
        | v :: rest2 =>
          if isPresent acc s.name = true then Except.error (ParseError.repeated s.name)
          else if v.startsWith "-" = true ∧ s.allowHyphen = false then
            Except.error (ParseError.hyphenValue s.name v)
          else
            parseTokens specs rest2 (setPresence acc s.name (Presence.value v))

/- ---------------- conditional defaults (spec section 4.3) ---------------- -/

/-- Modelled from the spec: walk the ordered default_value_ifs rules and take
the substitute value of the first rule whose predicate flag is present
(section 4.3, first match wins). -/
def firstMatchDefault (p : PresenceMap) : List (String × String) → Option String
  | [] => none
  | r :: rest => if isPresent p r.fst = true then some r.snd else firstMatchDefault p rest

/-- Modelled from the spec: resolved value of the format flag — the supplied
value if present, else the first matching conditional default, else the
static default when one is declared (section 4.3). -/
def resolveFormat (s : FlagSpec) (p : PresenceMap) : Option String :=
  match lookupPresence p s.name with
  | Presence.value v => some v
  | _ =>
    match firstMatchDefault p s.defaultValIfs with
    | some v => some v
    | none => s.defaultVal

/- ---------------- action building (spec section 4.4) ---------------- -/

def digitVal (c : Char) : Option Nat :=
  if c.isDigit = true then some (c.toNat - Char.toNat '0') else none

def parseNatAux : List Char → Nat → Option Nat
  | [], acc => some acc
  | c :: rest, acc =>
    match digitVal c with
    | some d => parseNatAux rest (acc * 10 + d)
    | none => none

def parseNatChars (cs : List Char) : Option Nat :=
  match cs with
  | [] => none
  | _ => parseNatAux cs 0

/-- A seek target: relative offset (signed value supplied) or absolute
position in seconds (unsigned value supplied). -/
inductive SeekTarget where
  | relative (n : Int)
  | absolute (n : Nat)
deriving DecidableEq

/-- Modelled from the spec: seek value parsing — a leading + gives a relative
forward seek, a leading - a relative backward seek, and no sign an absolute
position (the sign's presence changes the semantics, not just the value).
The enforcing code is not in the repository source; only the seek Arg
declaration and its long_help are. -/
def parseSeek (s : String) : Option SeekTarget :=
  match s.data with
  | '+' :: rest => (parseNatChars rest).map (fun n => SeekTarget.relative (n : Int))
  | '-' :: rest => (parseNatChars rest).map (fun n => SeekTarget.relative (-(n : Int)))
  | cs => (parseNatChars cs).map (fun n => SeekTarget.absolute n)

def parseIntStr (s : String) : Option Int :=
  match s.data with
  | '-' :: rest => (parseNatChars rest).map (fun n => -(n : Int))
  | cs => (parseNatChars cs).map (fun n => (n : Int))

inductive BuildError where
  | limitOutOfBounds (n : Int)
  | volumeOutOfBounds (n : Int)
  | badNumber (a v : String)
  | missingSelector (cmd : String)
deriving DecidableEq

/-- Modelled from the spec: the limit bound, limit in [1, 50], enforced
before any Action is returned.  The repository source only declares the
limit Arg with its help text; the enforcement lives outside src. -/
def checkLimit (n : Int) : Except BuildError Int :=
  if 1 ≤ n ∧ n ≤ 50 then Except.ok n else Except.error (BuildError.limitOutOfBounds n)

/-- Modelled from the spec: the volume bound, volume in [1, 100]. -/
def checkVolume (n : Int) : Except BuildError Int :=
  if 1 ≤ n ∧ n ≤ 100 then Except.ok n else Except.error (BuildError.volumeOutOfBounds n)

/-- Parse and bound-check the limit value when the flag is present. -/
def getLimit (p : PresenceMap) : Except BuildError (Option Int) :=
  match lookupPresence p "limit" with
  | Presence.value s =>
    match parseIntStr s with
    | some n => (checkLimit n).map some
    | none => Except.error (BuildError.badNumber "limit" s)
  | _ => Except.ok none

inductive ListKind where
  | devices
  | likedSongs
  | playlists
deriving DecidableEq

structure ListAction where
  kind : ListKind
  limit : Option Int
  format : Option String
deriving DecidableEq

/-- Modelled from the spec: the list Action builder (section 4.4); not in the
repository source, which only declares the list flag schema. -/
def buildList (p : PresenceMap) : Except BuildError ListAction := do
  let lim ← getLimit p
  let kind ←
    if isPresent p "devices" = true then pure ListKind.devices
    else if isPresent p "liked" = true then pure ListKind.likedSongs
    else if isPresent p "playlists" = true then pure ListKind.playlists
    else Except.error (BuildError.missingSelector "list")
  pure { kind := kind, limit := lim, format := resolveFormat listFormatArg p }

inductive SearchKind where
  | tracks
  | albums
  | artists
  | playlists
  | shows
deriving DecidableEq

structure SearchAction where
  kind : SearchKind
  query : String
  limit : Option Int
  format : Option String
deriving DecidableEq

/-- Modelled from the spec: the search Action builder (section 4.4). -/
def buildSearch (p : PresenceMap) : Except BuildError SearchAction := do
  let lim ← getLimit p
  let q ←
    match lookupPresence p "search" with
    | Presence.value v => pure v
    | _ => Except.error (BuildError.missingSelector "search")
  let kind ←
    if isPresent p "tracks" = true then pure SearchKind.tracks
    else if isPresent p "albums" = true then pure SearchKind.albums
    else if isPresent p "artists" = true then pure SearchKind.artists
    else if isPresent p "playlists" = true then pure SearchKind.playlists
    else if isPresent p "shows" = true then pure SearchKind.shows
    else Except.error (BuildError.missingSelector "search")
  pure { kind := kind, query := q, limit := lim, format := resolveFormat searchFormatArg p }

inductive PlaybackOp where
  | toggle
  | status
  | shareTrack
  | shareAlbum
  | transferTo (d : String)
  | like
  | dislike
  | toggleShuffle
  | cycleRepeat
  | skipNext (n : Nat)
  | skipPrevious (n : Nat)
  | seekTo (t : SeekTarget)
  | setVolume (v : Int)
deriving DecidableEq

/-- Modelled from the spec: the playback Action builder (section 4.4) — a
positive next or previous count selects Skip with that magnitude, seek and
volume parse and bound-check their value, and status is the default when
nothing else matches. -/
def buildPlayback (p : PresenceMap) : Except BuildError PlaybackOp :=
  if 0 < countOf p "next" then Except.ok (PlaybackOp.skipNext (countOf p "next"))
  else if 0 < countOf p "previous" then
    Except.ok (PlaybackOp.skipPrevious (countOf p "previous"))
  else
    match lookupPresence p "seek" with
    | Presence.value s =>
      match parseSeek s with
      | some t => Except.ok (PlaybackOp.seekTo t)
      | none => Except.error (BuildError.badNumber "seek" s)
    | _ =>
      match lookupPresence p "volume" with
      | Presence.value s =>
        match parseIntStr s with
        | some n => (checkVolume n).map PlaybackOp.setVolume
        | none => Except.error (BuildError.badNumber "volume" s)
      | _ =>
        if isPresent p "share-track" = true then Except.ok PlaybackOp.shareTrack
        else if isPresent p "share-album" = true then Except.ok PlaybackOp.shareAlbum
        else
          match lookupPresence p "transfer" with
          | Presence.value d => Except.ok (PlaybackOp.transferTo d)
          | _ =>
            if isPresent p "like" = true then Except.ok PlaybackOp.like
            else if isPresent p "dislike" = true then Except.ok PlaybackOp.dislike
            else if isPresent p "shuffle" = true then Except.ok PlaybackOp.toggleShuffle
            else if isPresent p "repeat" = true then Except.ok PlaybackOp.cycleRepeat
            else if isPresent p "toggle" = true then Except.ok PlaybackOp.toggle
            else Except.ok PlaybackOp.status

inductive CliError where
  | parse (e : ParseError)
  | invalid (e : ValidationError)
  | build (e : BuildError)
deriving DecidableEq

/-- Modelled from the spec: the playback route — parse, validate, build, in
sequence, short-circuiting on the first failure (section 4.5). -/
def playbackRoute (tokens : List String) : Except CliError PlaybackOp :=
  match parseTokens playbackArgs tokens [] with
  | Except.error e => Except.error (CliError.parse e)
  | Except.ok p =>
    match playbackValidate p with
    | some e => Except.error (CliError.invalid e)
    | none =>
      match buildPlayback p with
      | Except.error e => Except.error (CliError.build e)
      | Except.ok op => Except.ok op

/- ---------------- general lemmas about the validation engine ---------------- -/

lemma checkGroups_cons_some {p : PresenceMap} {all : List ArgGroup} {g : ArgGroup}
    {gs : List ArgGroup} {e : ValidationError} (h : checkGroup p all g = some e) :
    checkGroups p all (g :: gs) = some e := by
  unfold checkGroups
  rw [h]

lemma checkGroups_cons_none {p : PresenceMap} {all : List ArgGroup} {g : ArgGroup}
    {gs : List ArgGroup} (h : checkGroup p all g = none) :
    checkGroups p all (g :: gs) = checkGroups p all gs := by
  have e1 : checkGroups p all (g :: gs) =
      match checkGroup p all g with
      | some e => some e
      | none => checkGroups p all gs := rfl
  rw [e1, h]

lemma checkGroups_none_of_mem {p : PresenceMap} {all gs : List ArgGroup}
    (h : checkGroups p all gs = none) : ∀ g ∈ gs, checkGroup p all g = none := by
  induction gs with
  | nil => intro g hg; cases hg
  | cons a as ih =>
    intro g hg
    cases hca : checkGroup p all a with
    | some e => rw [checkGroups_cons_some hca] at h; cases h
    | none =>
      rw [checkGroups_cons_none hca] at h
      rcases List.mem_cons.mp hg with hq | hg2
      · rw [hq]; exact hca
      · exact ih h g hg2

lemma checkArgs_none_of_mem {p : PresenceMap} {all : List ArgGroup} {ss : List FlagSpec}
    (h : checkArgs p all ss = none) : ∀ s ∈ ss, checkArg p all s = none := by
  induction ss with
  | nil => intro s hs; cases hs
  | cons a as ih =>
    intro s hs
    unfold checkArgs at h
    cases hca : checkArg p all a with
    | some e => rw [hca] at h; cases h
    | none =>
      rw [hca] at h
      rcases List.mem_cons.mp hs with hq | hs2
      · rw [hq]; exact hca
      · exact ih h s hs2

lemma validateCommand_groups_some {specs : List FlagSpec} {groups : List ArgGroup}
    {p : PresenceMap} {e : ValidationError} (h : checkGroups p groups groups = some e) :
    validateCommand specs groups p = some e := by
  unfold validateCommand
  rw [h]

lemma validateCommand_ne_none_of_group {specs : List FlagSpec} {groups : List ArgGroup}
    {p : PresenceMap} {g : ArgGroup} (hg : g ∈ groups)
    (h : checkGroup p groups g ≠ none) : validateCommand specs groups p ≠ none := by
  intro hnone
  unfold validateCommand at hnone
  cases hc : checkGroups p groups groups with
  | some e => rw [hc] at hnone; cases hnone
  | none => exact h (checkGroups_none_of_mem hc g hg)

lemma validateCommand_none {specs : List FlagSpec} {groups : List ArgGroup}
    {p : PresenceMap} (h : validateCommand specs groups p = none) :
    checkGroups p groups groups = none ∧ checkArgs p groups specs = none ∧
      checkRequiredArgs p specs = none := by
  unfold validateCommand at h
  cases h1 : checkGroups p groups groups with
  | some e => rw [h1] at h; cases h
  | none =>
    rw [h1] at h
    cases h2 : checkArgs p groups specs with
    | some e => rw [h2] at h; cases h
    | none => rw [h2] at h; exact ⟨rfl, rfl, h⟩

lemma checkGroup_none_facts {p : PresenceMap} {all : List ArgGroup} {g : ArgGroup}
    (h : checkGroup p all g = none) :
    (g.multiple = false → presentCount p g.args ≤ 1) ∧
    (g.required = true → 0 < presentCount p g.args) := by
  unfold checkGroup at h
  by_cases h1 : g.multiple = false ∧ 2 ≤ presentCount p g.args
  · rw [if_pos h1] at h; cases h
  · rw [if_neg h1] at h
    by_cases h2 : g.required = true ∧ presentCount p g.args = 0
    · rw [if_pos h2] at h; cases h
    · constructor
      · intro hm
        by_contra hle
        exact h1 ⟨hm, by omega⟩
      · intro hr
        rcases Nat.eq_zero_or_pos (presentCount p g.args) with h0 | h0
        · exact absurd ⟨hr, h0⟩ h2
        · exact h0

lemma checkArg_none_requires {p : PresenceMap} {all : List ArgGroup} {s : FlagSpec}
    {gn : String} (hreq : s.requiresGroup = some gn) (hp : isPresent p s.name = true)
    (h : checkArg p all s = none) : 0 < groupCount p all gn := by
  unfold checkArg at h
  rw [if_pos hp, hreq] at h
  rcases Nat.eq_zero_or_pos (groupCount p all gn) with h0 | h0
  · simp [h0] at h
  · exact h0

lemma isPresent_false_of_presentCount_zero {p : PresenceMap} {ns : List String}
    (h : presentCount p ns = 0) : ∀ n ∈ ns, isPresent p n = false := by
  intro n hn
  cases hx : isPresent p n with
  | false => rfl
  | true =>
    exfalso
    have hmem : n ∈ ns.filter (fun m => isPresent p m) := List.mem_filter.mpr ⟨hn, hx⟩
    have hpos := List.length_pos_of_mem hmem
    unfold presentCount at h
    omega

/- groupCount over the concrete group tables, by name -/

lemma groupCount_playback_single (p : PresenceMap) :
    groupCount p playbackGroups "single" = presentCount p ["share-track", "share-album"] := rfl

lemma groupCount_playback_flags (p : PresenceMap) :
    groupCount p playbackGroups "flags" =
      presentCount p ["like", "dislike", "shuffle", "repeat"] := rfl

lemma groupCount_playback_actions (p : PresenceMap) :
    groupCount p playbackGroups "actions" =
      presentCount p ["toggle", "status", "transfer", "volume"] := rfl

lemma groupCount_play_contexts (p : PresenceMap) :
    groupCount p playGroups "contexts" =
      presentCount p ["track", "artist", "playlist", "album", "show"] := rfl

lemma checkGroup_mutex {p : PresenceMap} {all : List ArgGroup} {g : ArgGroup}
    (hm : g.multiple = false) (hc : 2 ≤ presentCount p g.args) :
    checkGroup p all g = some (ValidationError.mutuallyExclusive g.name) := by
  unfold checkGroup
  rw [if_pos ⟨hm, hc⟩]

lemma checkGroup_none_of_zero {p : PresenceMap} {all : List ArgGroup} {g : ArgGroup}
    (hr : g.required = false) (hc : presentCount p g.args = 0) :
    checkGroup p all g = none := by
  unfold checkGroup
  rw [if_neg (by rintro ⟨-, hh⟩; omega),
      if_neg (by rintro ⟨hh, -⟩; rw [hr] at hh; cases hh),
      if_neg (by omega)]

lemma checkGroup_one_conflict {p : PresenceMap} {all : List ArgGroup} {g : ArgGroup}
    (h1 : presentCount p g.args = 1) :
    checkGroup p all g =
      match g.conflictsWith.find? (fun n => decide (0 < groupCount p all n)) with
      | some n => some (ValidationError.groupConflict g.name n)
      | none => none := by
  unfold checkGroup
  rw [if_neg (by rintro ⟨-, hh⟩; omega),
      if_neg (by rintro ⟨-, hh⟩; omega),
      if_pos (by omega)]

/- ---------------- claims ---------------- -/

/-- Claim C1 (evidence for the code bug): the next Arg of playback is
declared with num_args(0) and without a count action, so it is a plain
boolean flag, not a counted one — supplying next three times collapses to
a single presence and the resulting playback action is SkipNext(1), not
SkipNext(3) as the claim (and the Arg's own long_help) promise. -/
theorem C1_next_not_counted :
    nextArg.numArgsDecl = some 0 ∧ nextArg.counted = false ∧
    parseTokens playbackArgs ["--next", "--next", "--next"] [] =
      Except.ok [("next", Presence.count 1)] ∧
    playbackRoute ["--next", "--next", "--next"] = Except.ok (PlaybackOp.skipNext 1) ∧
    PlaybackOp.skipNext 1 ≠ PlaybackOp.skipNext 3 :=
  ⟨rfl, rfl, rfl, rfl, by decide⟩

/-- Claim C2 (counterexample): the claim says that any playback invocation
with a jumps member present together with a flags member fails with a
group-conflict error; but with next, previous and like all present the
first violated rule is the jumps group's own mutual exclusion, so the
reported error is MutuallyExclusive(jumps), not a group conflict. -/
theorem C2_group_conflict_cex :
    isPresent [("next", Presence.count 1), ("previous", Presence.value "x"),
        ("like", Presence.count 1)] "next" = true ∧
    isPresent [("next", Presence.count 1), ("previous", Presence.value "x"),
        ("like", Presence.count 1)] "like" = true ∧
    playbackValidate [("next", Presence.count 1), ("previous", Presence.value "x"),
        ("like", Presence.count 1)] = some (ValidationError.mutuallyExclusive "jumps") := by
  refine ⟨rfl, rfl, rfl⟩

/-- Claim C2 (amended): whenever a jumps member (next or previous) is present
together with a member of the flags, actions or single group, playback
validation fails before any Action is built, and the error is a
group-conflict error naming jumps provided not both next and previous were
supplied; an invocation with both share-track and share-album present also
fails validation, with the single group's mutual-exclusion error provided
no jumps, flags or actions member is present as well. -/
theorem C2_playback_conflicts_amended (p : PresenceMap) :
    (0 < presentCount p ["next", "previous"] →
      (0 < presentCount p ["like", "dislike", "shuffle", "repeat"] ∨
       0 < presentCount p ["toggle", "status", "transfer", "volume"] ∨
       0 < presentCount p ["share-track", "share-album"]) →
      (playbackValidate p).isSome = true ∧
        (presentCount p ["next", "previous"] = 1 →
          ∃ g, playbackValidate p = some (ValidationError.groupConflict "jumps" g))) ∧
    (isPresent p "share-track" = true → isPresent p "share-album" = true →
      (playbackValidate p).isSome = true ∧
        (presentCount p ["next", "previous"] = 0 →
         presentCount p ["like", "dislike", "shuffle", "repeat"] = 0 →
         presentCount p ["toggle", "status", "transfer", "volume"] = 0 →
         playbackValidate p = some (ValidationError.mutuallyExclusive "single"))) := by
  constructor
  · intro hj hc
    rcases Nat.lt_or_ge (presentCount p ["next", "previous"]) 2 with hlt | hge
    · have h1 : presentCount p ["next", "previous"] = 1 := by omega
      have h1' : presentCount p jumpsGroup.args = 1 := h1
      have hcg0 := @checkGroup_one_conflict p playbackGroups jumpsGroup h1'
      have hcw : jumpsGroup.conflictsWith = ["single", "flags", "actions"] := rfl
      rw [hcw] at hcg0
      by_cases hs : 0 < presentCount p ["share-track", "share-album"]
      · have hfind : (["single", "flags", "actions"].find?
            (fun n => decide (0 < groupCount p playbackGroups n))) = some "single" := by
          apply List.find?_cons_of_pos
          show decide (0 < groupCount p playbackGroups "single") = true
          rw [groupCount_playback_single]
          exact decide_eq_true hs
        rw [hfind] at hcg0
        have hgs : checkGroups p playbackGroups playbackGroups =
            some (ValidationError.groupConflict "jumps" "single") := by
          show checkGroups p playbackGroups
              (jumpsGroup :: [likesGroup, flagsGroup, actionsGroup, singleGroup]) = _
          exact checkGroups_cons_some hcg0
        have hv : playbackValidate p = some (ValidationError.groupConflict "jumps" "single") :=
          validateCommand_groups_some hgs
        exact ⟨by rw [hv]; rfl, fun _ => ⟨"single", hv⟩⟩
      · by_cases hf : 0 < presentCount p ["like", "dislike", "shuffle", "repeat"]
        · have hfind : (["single", "flags", "actions"].find?
              (fun n => decide (0 < groupCount p playbackGroups n))) = some "flags" := by
            rw [List.find?_cons_of_neg _ (by
              show ¬ decide (0 < groupCount p playbackGroups "single") = true
              rw [groupCount_playback_single]
              simp only [decide_eq_true_eq]
              exact hs)]
            apply List.find?_cons_of_pos
            show decide (0 < groupCount p playbackGroups "flags") = true
            rw [groupCount_playback_flags]
            exact decide_eq_true hf
          rw [hfind] at hcg0
          have hgs : checkGroups p playbackGroups playbackGroups =
              some (ValidationError.groupConflict "jumps" "flags") := by
            show checkGroups p playbackGroups
                (jumpsGroup :: [likesGroup, flagsGroup, actionsGroup, singleGroup]) = _
            exact checkGroups_cons_some hcg0
          have hv : playbackValidate p = some (ValidationError.groupConflict "jumps" "flags") :=
            validateCommand_groups_some hgs
          exact ⟨by rw [hv]; rfl, fun _ => ⟨"flags", hv⟩⟩
        · have ha : 0 < presentCount p ["toggle", "status", "transfer", "volume"] := by
            rcases hc with h | h | h
            · exact absurd h hf
            · exact h
            · exact absurd h hs
          have hfind : (["single", "flags", "actions"].find?
              (fun n => decide (0 < groupCount p playbackGroups n))) = some "actions" := by
            rw [List.find?_cons_of_neg _ (by
              show ¬ decide (0 < groupCount p playbackGroups "single") = true
              rw [groupCount_playback_single]
              simp only [decide_eq_true_eq]
              exact hs)]
            rw [List.find?_cons_of_neg _ (by
              show ¬ decide (0 < groupCount p playbackGroups "flags") = true
              rw [groupCount_playback_flags]
              simp only [decide_eq_true_eq]
              exact hf)]
            apply List.find?_cons_of_pos
            show decide (0 < groupCount p playbackGroups "actions") = true
            rw [groupCount_playback_actions]
            exact decide_eq_true ha
          rw [hfind] at hcg0
          have hgs : checkGroups p playbackGroups playbackGroups =
              some (ValidationError.groupConflict "jumps" "actions") := by
            show checkGroups p playbackGroups
                (jumpsGroup :: [likesGroup, flagsGroup, actionsGroup, singleGroup]) = _
            exact checkGroups_cons_some hcg0
          have hv : playbackValidate p = some (ValidationError.groupConflict "jumps" "actions") :=
            validateCommand_groups_some hgs
          exact ⟨by rw [hv]; rfl, fun _ => ⟨"actions", hv⟩⟩
    · have hge' : 2 ≤ presentCount p jumpsGroup.args := hge
      have hcg0 : checkGroup p playbackGroups jumpsGroup =
          some (ValidationError.mutuallyExclusive "jumps") := checkGroup_mutex rfl hge'
      have hgs : checkGroups p playbackGroups playbackGroups =
          some (ValidationError.mutuallyExclusive "jumps") := by
        show checkGroups p playbackGroups
            (jumpsGroup :: [likesGroup, flagsGroup, actionsGroup, singleGroup]) = _
        exact checkGroups_cons_some hcg0
      have hv : playbackValidate p = some (ValidationError.mutuallyExclusive "jumps") :=
        validateCommand_groups_some hgs
      exact ⟨by rw [hv]; rfl, fun h1 => by omega⟩
  · intro hst hsa
    have hcnt : presentCount p ["share-track", "share-album"] = 2 := by
      simp [presentCount, hst, hsa]
    have hcnt' : 2 ≤ presentCount p singleGroup.args := le_of_eq hcnt.symm
    have hsingle : checkGroup p playbackGroups singleGroup =
        some (ValidationError.mutuallyExclusive "single") := checkGroup_mutex rfl hcnt'
    constructor
    · have hne := @validateCommand_ne_none_of_group playbackArgs playbackGroups p singleGroup
        (show singleGroup ∈ playbackGroups by decide)
        (show checkGroup p playbackGroups singleGroup ≠ none by rw [hsingle]; simp)
      cases hv : playbackValidate p with
      | none => exact absurd hv hne
      | some e => rfl
    · intro hz1 hz2 hz3
      have hjumps : checkGroup p playbackGroups jumpsGroup = none :=
        checkGroup_none_of_zero rfl hz1
      have hlikeF := isPresent_false_of_presentCount_zero hz2 "like" (by simp)
      have hdisF := isPresent_false_of_presentCount_zero hz2 "dislike" (by simp)
      have hlikes0 : presentCount p ["like", "dislike"] = 0 := by
        simp [presentCount, hlikeF, hdisF]
      have hlikes : checkGroup p playbackGroups likesGroup = none :=
        checkGroup_none_of_zero rfl hlikes0
      have hflags : checkGroup p playbackGroups flagsGroup = none :=
        checkGroup_none_of_zero rfl hz2
      have hacts : checkGroup p playbackGroups actionsGroup = none :=
        checkGroup_none_of_zero rfl hz3
      have hgs : checkGroups p playbackGroups playbackGroups =
          some (ValidationError.mutuallyExclusive "single") := by
        show checkGroups p playbackGroups
            (jumpsGroup :: likesGroup :: flagsGroup :: actionsGroup :: singleGroup :: []) = _
        rw [checkGroups_cons_none hjumps, checkGroups_cons_none hlikes,
            checkGroups_cons_none hflags, checkGroups_cons_none hacts,
            checkGroups_cons_some hsingle]
      exact validateCommand_groups_some hgs

/-- Claim C2 witness: playback with next and like both present is rejected. -/
theorem C2_playback_conflicts_amended_witness :
    (playbackValidate [("next", Presence.count 1), ("like", Presence.count 1)]).isSome = true :=
  ((C2_playback_conflicts_amended [("next", Presence.count 1), ("like", Presence.count 1)]).1
    (by decide) (Or.inl (by decide))).1

/-- Claim C3: for the list and search commands every limit value outside
[1, 50] is rejected with a bound error before an Action is returned, and
limit 0 and 51 fail while limit 1 and 50 succeed. -/
theorem C3_limit_bound_enforced :
    (∀ (p : PresenceMap) (s : String) (n : Int),
      lookupPresence p "limit" = Presence.value s → parseIntStr s = some n →
      (n < 1 ∨ 50 < n) →
      buildList p = Except.error (BuildError.limitOutOfBounds n) ∧
      buildSearch p = Except.error (BuildError.limitOutOfBounds n)) ∧
    buildList [("devices", Presence.count 1), ("limit", Presence.value "0")] =
      Except.error (BuildError.limitOutOfBounds 0) ∧
    buildList [("devices", Presence.count 1), ("limit", Presence.value "51")] =
      Except.error (BuildError.limitOutOfBounds 51) ∧
    buildList [("devices", Presence.count 1), ("limit", Presence.value "1")] =
      Except.ok { kind := ListKind.devices, limit := some 1, format := some "%v% %d" } ∧
    buildList [("devices", Presence.count 1), ("limit", Presence.value "50")] =
      Except.ok { kind := ListKind.devices, limit := some 50, format := some "%v% %d" } ∧
    buildSearch [("search", Presence.value "abba"), ("tracks", Presence.count 1),
        ("limit", Presence.value "0")] = Except.error (BuildError.limitOutOfBounds 0) ∧
    buildSearch [("search", Presence.value "abba"), ("tracks", Presence.count 1),
        ("limit", Presence.value "51")] = Except.error (BuildError.limitOutOfBounds 51) ∧
    buildSearch [("search", Presence.value "abba"), ("tracks", Presence.count 1),
        ("limit", Presence.value "1")] =
      Except.ok { kind := SearchKind.tracks, query := "abba", limit := some 1,
                  format := some "%t - %a (%u)" } ∧
    buildSearch [("search", Presence.value "abba"), ("tracks", Presence.count 1),
        ("limit", Presence.value "50")] =
      Except.ok { kind := SearchKind.tracks, query := "abba", limit := some 50,
                  format := some "%t - %a (%u)" } := by
  refine ⟨?_, rfl, rfl, rfl, rfl, rfl, rfl, rfl, rfl⟩
  intro p s n h1 h2 h3
  have hcl : checkLimit n = Except.error (BuildError.limitOutOfBounds n) := by
    unfold checkLimit
    rw [if_neg (by rintro ⟨ha, hb⟩; rcases h3 with h | h <;> omega)]
  have hgl : getLimit p = Except.error (BuildError.limitOutOfBounds n) := by
    unfold getLimit
    rw [h1]
    simp [h2, hcl, Except.map]
  constructor
  · simp [buildList, hgl, Bind.bind, Except.bind]
  · simp [buildSearch, hgl, Bind.bind, Except.bind]

/-- Claim C3 witness: list with limit 51 is rejected with the bound error. -/
theorem C3_limit_bound_enforced_witness :
    buildList [("devices", Presence.count 1), ("limit", Presence.value "51")] =
      Except.error (BuildError.limitOutOfBounds 51) :=
  (C3_limit_bound_enforced.1 [("devices", Presence.count 1), ("limit", Presence.value "51")]
    "51" 51 (by decide) (by decide) (by decide)).1

/-- Claim C4: for every validated list invocation without an explicit format,
the resolved format string is the one of the first matching conditional
default in declared order — devices, then liked, then playlists — and the
fall-through case is unreachable because the listable group is required. -/
theorem C4_list_format_defaults (p : PresenceMap)
    (hv : listValidate p = none) (hf : lookupPresence p "format" = Presence.absent) :
    (isPresent p "devices" = true → resolveFormat listFormatArg p = some "%v% %d") ∧
    (isPresent p "devices" = false → isPresent p "liked" = true →
      resolveFormat listFormatArg p = some "%t - %a (%u)") ∧
    (isPresent p "devices" = false → isPresent p "liked" = false →
      isPresent p "playlists" = true → resolveFormat listFormatArg p = some "%p (%u)") ∧
    (isPresent p "devices" = false → isPresent p "liked" = false →
      isPresent p "playlists" = false → False) := by
  refine ⟨?_, ?_, ?_, ?_⟩
  · intro hdev
    simp [resolveFormat, listFormatArg, formatArgBase, hf, firstMatchDefault, hdev]
  · intro hdev hlik
    simp [resolveFormat, listFormatArg, formatArgBase, hf, firstMatchDefault, hdev, hlik]
  · intro hdev hlik hpl
    simp [resolveFormat, listFormatArg, formatArgBase, hf, firstMatchDefault, hdev, hlik, hpl]
  · intro hdev hlik hpl
    obtain ⟨hg, -, -⟩ := validateCommand_none hv
    have hl := checkGroups_none_of_mem hg listableGroup (by decide)
    have hpos : 0 < presentCount p ["devices", "playlists", "liked"] :=
      (checkGroup_none_facts hl).2 rfl
    simp [presentCount, hdev, hlik, hpl] at hpos

/-- Claim C4 witness: a validated list invocation with playlists present and
no explicit format resolves to the playlists default. -/
theorem C4_list_format_defaults_witness :
    resolveFormat listFormatArg [("playlists", Presence.count 1)] = some "%p (%u)" :=
  (C4_list_format_defaults [("playlists", Presence.count 1)]
    (by decide) (by decide)).2.2.1 rfl rfl rfl

/-- Claim C5: playback's conditional format defaults are declared in the
order seek, volume, transfer, and when several predicates hold at once the
first declared matching rule wins — with volume and transfer both present
(and seek absent) the resolved format is volume's, transfer's is ignored. -/
theorem C5_playback_default_priority (p : PresenceMap)
    (hf : lookupPresence p "format" = Presence.absent)
    (hseek : isPresent p "seek" = false)
    (hvol : isPresent p "volume" = true)
    (_htr : isPresent p "transfer" = true) :
    playbackFormatArg.defaultValIfs.map Prod.fst = ["seek", "volume", "transfer"] ∧
    resolveFormat playbackFormatArg p = some "%v% %f %s %t - %a" := by
  refine ⟨rfl, ?_⟩
  simp [resolveFormat, playbackFormatArg, formatArgBase, hf, firstMatchDefault, hseek, hvol]

/-- Claim C5 witness: volume and transfer both present resolve to volume's
format. -/
theorem C5_playback_default_priority_witness :
    resolveFormat playbackFormatArg
      [("volume", Presence.value "50"), ("transfer", Presence.value "dev")] =
      some "%v% %f %s %t - %a" :=
  (C5_playback_default_priority
    [("volume", Presence.value "50"), ("transfer", Presence.value "dev")]
    (by decide) (by decide) (by decide) (by decide)).2

/-- Claim C6: every play invocation accepted by validation has exactly one of
uri and name present, and when name is present exactly one context flag
(track, artist, playlist, album, show) is present as well. -/
theorem C6_play_exclusive_target (p : PresenceMap) (hv : playValidate p = none) :
    ((isPresent p "uri" = true ∧ isPresent p "name" = false) ∨
     (isPresent p "uri" = false ∧ isPresent p "name" = true)) ∧
    (isPresent p "name" = true →
      presentCount p ["track", "artist", "playlist", "album", "show"] = 1) := by
  obtain ⟨hg, ha, -⟩ := validateCommand_none hv
  have hact := checkGroups_none_of_mem hg playActionsGroup (by decide)
  have hctx := checkGroups_none_of_mem hg contextsGroup (by decide)
  have hle : presentCount p ["uri", "name"] ≤ 1 := (checkGroup_none_facts hact).1 rfl
  have hpos : 0 < presentCount p ["uri", "name"] := (checkGroup_none_facts hact).2 rfl
  constructor
  · cases hu : isPresent p "uri" with
    | false =>
      cases hn : isPresent p "name" with
      | false => exfalso; simp [presentCount, hu, hn] at hpos
      | true => exact Or.inr ⟨rfl, rfl⟩
    | true =>
      cases hn : isPresent p "name" with
      | false => exact Or.inl ⟨rfl, rfl⟩
      | true => exfalso; simp [presentCount, hu, hn] at hle
  · intro hn
    have hs := checkArgs_none_of_mem ha playNameArg (by decide)
    have hreq : 0 < groupCount p playGroups "contexts" :=
      checkArg_none_requires rfl hn hs
    rw [groupCount_play_contexts] at hreq
    have hle2 : presentCount p ["track", "artist", "playlist", "album", "show"] ≤ 1 :=
      (checkGroup_none_facts hctx).1 rfl
    omega

/-- Claim C6 witness: a play invocation with only a uri validates and has
exactly one of uri and name. -/
theorem C6_play_exclusive_target_witness :
    (isPresent ([("uri", Presence.value "spotify:track:abc123")] : PresenceMap) "uri" = true ∧
     isPresent ([("uri", Presence.value "spotify:track:abc123")] : PresenceMap) "name" = false) ∨
    (isPresent ([("uri", Presence.value "spotify:track:abc123")] : PresenceMap) "uri" = false ∧
     isPresent ([("uri", Presence.value "spotify:track:abc123")] : PresenceMap) "name" = true) :=
  (C6_play_exclusive_target [("uri", Presence.value "spotify:track:abc123")] (by decide)).1

/-- Claim C7: seek value +10 parses as a relative forward seek of 10, -10 as
a relative backward seek of 10, and unsigned 10 as an absolute seek to
second 10, and the resulting playback actions differ in kind, not only in
numeric value. -/
theorem C7_seek_sign_semantics :
    parseSeek "+10" = some (SeekTarget.relative 10) ∧
    parseSeek "-10" = some (SeekTarget.relative (-10)) ∧
    parseSeek "10" = some (SeekTarget.absolute 10) ∧
    buildPlayback [("seek", Presence.value "+10")] =
      Except.ok (PlaybackOp.seekTo (SeekTarget.relative 10)) ∧
    buildPlayback [("seek", Presence.value "-10")] =
      Except.ok (PlaybackOp.seekTo (SeekTarget.relative (-10))) ∧
    buildPlayback [("seek", Presence.value "10")] =
      Except.ok (PlaybackOp.seekTo (SeekTarget.absolute 10)) ∧
    SeekTarget.relative 10 ≠ SeekTarget.absolute 10 :=
  ⟨rfl, rfl, rfl, rfl, rfl, rfl, by decide⟩

/-- Claim C8: like and dislike are mutually exclusive through the dedicated
likes group (multiple(false)): any playback invocation with both present
violates that group's exclusivity and is rejected by validation. -/
theorem C8_like_dislike_exclusive (p : PresenceMap)
    (hl : isPresent p "like" = true) (hd : isPresent p "dislike" = true) :
    likesGroup.multiple = false ∧ presentCount p likesGroup.args = 2 ∧
    (playbackValidate p).isSome = true := by
  have hcnt : presentCount p ["like", "dislike"] = 2 := by simp [presentCount, hl, hd]
  refine ⟨rfl, hcnt, ?_⟩
  have hck : checkGroup p playbackGroups likesGroup ≠ none := by
    rw [checkGroup_mutex rfl (le_of_eq hcnt.symm : 2 ≤ presentCount p ["like", "dislike"])]
    simp
  have hne := @validateCommand_ne_none_of_group playbackArgs playbackGroups p likesGroup
    (show likesGroup ∈ playbackGroups by decide) hck
  cases hv : playbackValidate p with
  | none => exact absurd hv hne
  | some e => rfl

/-- Claim C8 witness: like and dislike together are rejected. -/
theorem C8_like_dislike_exclusive_witness :
    (playbackValidate [("like", Presence.count 1), ("dislike", Presence.count 1)]).isSome
      = true :=
  (C8_like_dislike_exclusive [("like", Presence.count 1), ("dislike", Presence.count 1)]
    (by decide) (by decide)).2.2

/-- Claim C9: in the playback schema next is declared with arity zero while
previous keeps clap's default of one value token, so playback --previous
with no following token is a syntax error while playback --next is
accepted. -/
theorem C9_next_previous_arity :
    effectiveNumArgs nextArg = 0 ∧ effectiveNumArgs previousArg = 1 ∧
    nextArg ∈ playbackArgs ∧ previousArg ∈ playbackArgs ∧
    parseTokens playbackArgs ["--next"] [] = Except.ok [("next", Presence.count 1)] ∧
    playbackRoute ["--next"] = Except.ok (PlaybackOp.skipNext 1) ∧
    parseTokens playbackArgs ["--previous"] [] =
      Except.error (ParseError.missingValue "previous") :=
  ⟨rfl, rfl, by decide, by decide, rfl, rfl, rfl⟩

/-- Claim C10: at the derive-based top level, completions and tick-rate are
required — any accepted invocation has both present — while config alone
is optional: an invocation with just completions and tick-rate validates. -/
theorem C10_required_globals :
    (∀ p : PresenceMap, cliValidate p = none →
      isPresent p "completions" = true ∧ isPresent p "tick-rate" = true) ∧
    cliValidate [("completions", Presence.value "zsh"), ("tick-rate", Presence.value "250")] =
      none ∧
    configArg.required = false ∧ completionsArg.required = true ∧
    tickRateArg.required = true := by
  refine ⟨?_, by decide, rfl, rfl, rfl⟩
  intro p hv
  obtain ⟨-, -, hr⟩ := validateCommand_none hv
  cases hcp : isPresent p "completions" with
  | false =>
    exfalso
    simp [cliArgs, checkRequiredArgs, configArg, completionsArg, tickRateArg, hcp] at hr
  | true =>
    cases htr : isPresent p "tick-rate" with
    | false =>
      exfalso
      simp [cliArgs, checkRequiredArgs, configArg, completionsArg, tickRateArg, hcp, htr] at hr
    | true => exact ⟨rfl, rfl⟩

/-- Claim C10 witness: an invocation with completions and tick-rate but no
config is accepted and has both required flags present. -/
theorem C10_required_globals_witness :
    isPresent ([("completions", Presence.value "zsh"), ("tick-rate", Presence.value "250")] :
        PresenceMap) "completions" = true ∧
    isPresent ([("completions", Presence.value "zsh"), ("tick-rate", Presence.value "250")] :
        PresenceMap) "tick-rate" = true :=
  C10_required_globals.1
    [("completions", Presence.value "zsh"), ("tick-rate", Presence.value "250")] (by decide)

end Spt
